/-
Verification of the RegionalEdgeSimPy core against its specification.

Shallow embedding of the Python sources:
  * `src/entities/server.py`    → `Server`, `canAllocate`, `allocate`, `releaseCompleted`,
                                  `congestion`
  * `src/entities/task.py`      → `Task`, `completeTask`
  * `src/core/simulator.py`     → `applyPair`, `applyAssignments` (step 6 of `Simulator.run`)
  * `src/scheduler/rule_scheduler.py` → `tryTier`, `scheduleTask`, `schedule`
  * `src/workload/generator.py` → `WorkloadGenerator`, `generateTasks`
  * `src/mobility/manager.py`   → `MMCounters`, `updateAll`, `simClockDelta`
  * `src/mobility/mobile_entity.py` → `MobileEntity`, `signalStrength`, `pickBestBs`

Python numbers (ints and floats used for resource quantities) are modelled as
rationals; geometric signal computations (`math.hypot`, `math.log10`) are
modelled over the reals.  Python's `uuid4` task identity is modelled as a
natural-number key; `dict` state is modelled as an association list with
`dictInsert` mirroring `d[k] = v` semantics.
-/
import Mathlib

namespace EdgeSim

/-! ## Configuration constants (src/config/config.py) -/

/-- `WORKLOAD["data_per_device_kb"]` from src/config/config.py. -/
def WORKLOAD_data_per_device_kb : ℚ := 10

/-- `WORKLOAD["start_devices"]` from src/config/config.py. -/
def WORKLOAD_start_devices : ℕ := 100

/-- `WORKLOAD["max_devices"]` from src/config/config.py. -/
def WORKLOAD_max_devices : ℕ := 6000

/-- `WORKLOAD["increment"]` from src/config/config.py. -/
def WORKLOAD_increment : ℕ := 10

/-- `MOBILITY_CONFIG["handover_latency_ms"]` from src/config/config.py. -/
def MOBILITY_handover_latency_ms : ℕ := 20

/-! ## Resource ledger (src/entities/server.py) -/

/-- One entry of `Server.running_tasks`: the tuple
`(cpu_demand, storage_demand, memory_demand, release_time)` stored by
`Server.allocate`. -/
structure Reservation where
  cpu : ℚ
  storage : ℚ
  memory : ℚ
  release_time : ℚ
deriving DecidableEq, Repr

/-- The `Server` class of src/entities/server.py, restricted to the fields the
resource ledger, metrics and scheduler read or write.  The 2D position and the
optional mobility controller live in the mobility embedding below. -/
structure Server where
  name : String
  cpu_capacity : ℚ
  storage_capacity : ℚ
  memory_capacity : ℚ
  bandwidth : ℚ
  latency : ℚ
  cost : ℚ
  tx_cost : ℚ
  available_cpu : ℚ
  available_storage : ℚ
  available_memory : ℚ
  running_tasks : List (ℕ × Reservation)
  total_data_transferred_kb : ℚ
  total_cost : ℚ
deriving DecidableEq, Repr

/-- `Server.can_allocate` (src/entities/server.py lines 81-89). -/
def canAllocate (s : Server) (cpu_demand storage_demand memory_demand : ℚ) : Bool :=
  decide (s.available_cpu ≥ cpu_demand) &&
  decide (s.available_storage ≥ storage_demand) &&
  decide (s.available_memory ≥ memory_demand)

/-- Python `dict` assignment `d[task_id] = v` on the association-list model of
`Server.running_tasks`: replace the value if the key is present, else append. -/
def dictInsert (k : ℕ) (v : Reservation) (l : List (ℕ × Reservation)) :
    List (ℕ × Reservation) :=
  if l.any (fun p => p.1 = k) then
    l.map (fun p => if p.1 = k then (k, v) else p)
  else
    l ++ [(k, v)]

/-- `Server.allocate` (src/entities/server.py lines 91-110): returns the Python
boolean result together with the updated server state. -/
def allocate (s : Server) (task_id : ℕ)
    (cpu_demand storage_demand memory_demand release_time : ℚ) : Bool × Server :=
  if canAllocate s cpu_demand storage_demand memory_demand then
    (true,
      { s with
        available_cpu := s.available_cpu - cpu_demand
        available_storage := s.available_storage - storage_demand
        available_memory := s.available_memory - memory_demand
        running_tasks :=
          dictInsert task_id
            ⟨cpu_demand, storage_demand, memory_demand, release_time⟩ s.running_tasks
        total_data_transferred_kb :=
          s.total_data_transferred_kb + WORKLOAD_data_per_device_kb
        total_cost :=
          s.total_cost + (cpu_demand * s.cost) +
            (WORKLOAD_data_per_device_kb * s.tx_cost) })
  else
    (false, s)

/-- `Server.release_completed_tasks` (src/entities/server.py lines 112-121):
every reservation whose release time has passed (`current_time >= rt`) is
removed and its three quantities are credited back to availability. -/
def releaseCompleted (s : Server) (current_time : ℚ) : Server :=
  let completed := s.running_tasks.filter (fun p => decide (current_time ≥ p.2.release_time))
  let remaining := s.running_tasks.filter (fun p => !(decide (current_time ≥ p.2.release_time)))
  { s with
    available_cpu := s.available_cpu + (completed.map (fun p => p.2.cpu)).sum
    available_storage := s.available_storage + (completed.map (fun p => p.2.storage)).sum
    available_memory := s.available_memory + (completed.map (fun p => p.2.memory)).sum
    running_tasks := remaining }

/-- Python's `round(x, 2)` on the rational model: round to two decimal places. -/
def round2 (x : ℚ) : ℚ := (round (x * 100) : ℤ) / 100

/-- `Server.congestion` (src/entities/server.py lines 136-140).  The Python body
divides by `self.bandwidth` with no zero guard, so a zero bandwidth raises
`ZeroDivisionError`; the fallible division is modelled with `Except`. -/
def congestion (s : Server) : Except Unit ℚ :=
  if s.bandwidth = 0 then Except.error ()
  else Except.ok (round2 ((s.total_data_transferred_kb / s.bandwidth) * 100))

/-- Sum of one component over all reservations of a ledger. -/
def resSum (f : Reservation → ℚ) (l : List (ℕ × Reservation)) : ℚ :=
  (l.map (fun p => f p.2)).sum

/-- The ledger equality invariant claimed by the specification:
`available_X = capacity_X − Σ(reservations on X)` for all three resources. -/
def LedgerInv (s : Server) : Prop :=
  s.available_cpu = s.cpu_capacity - resSum (fun r => r.cpu) s.running_tasks ∧
  s.available_storage = s.storage_capacity - resSum (fun r => r.storage) s.running_tasks ∧
  s.available_memory = s.memory_capacity - resSum (fun r => r.memory) s.running_tasks

instance (s : Server) : Decidable (LedgerInv s) := by
  unfold LedgerInv; infer_instance

/-- The weaker ledger invariant that survives the simulation loop's second,
clamped deduction: availability is non-negative, availability plus the
outstanding reservations never exceeds capacity, and every recorded
reservation is non-negative. -/
def BoundsInv (s : Server) : Prop :=
  (0 ≤ s.available_cpu ∧
    s.available_cpu + resSum (fun r => r.cpu) s.running_tasks ≤ s.cpu_capacity) ∧
  (0 ≤ s.available_storage ∧
    s.available_storage + resSum (fun r => r.storage) s.running_tasks ≤ s.storage_capacity) ∧
  (0 ≤ s.available_memory ∧
    s.available_memory + resSum (fun r => r.memory) s.running_tasks ≤ s.memory_capacity) ∧
  (∀ p ∈ s.running_tasks, 0 ≤ p.2.cpu ∧ 0 ≤ p.2.storage ∧ 0 ≤ p.2.memory)

instance (s : Server) : Decidable (BoundsInv s) := by
  unfold BoundsInv; infer_instance

/-! ## Work items (src/entities/task.py) -/

/-- `Task.status` lifecycle values (src/entities/task.py). -/
inductive TaskStatus where
  | created
  | scheduled
  | completed
  | failed
deriving DecidableEq, Repr

/-- The `Task` class of src/entities/task.py, restricted to the fields the core
reads or writes.  The `uuid4` identity is modelled as a natural number. -/
structure Task where
  id : ℕ
  cpu_demand : ℚ
  storage_demand : ℚ
  memory_demand : ℚ
  bandwidth : ℚ
  latency : Option ℚ
  priority : ℕ
  data_size_kb : ℚ
  execution_start_time : Option ℚ
  execution_end_time : Option ℚ
  status : TaskStatus
deriving DecidableEq, Repr

/-- `Task.complete` (src/entities/task.py lines 77-83). -/
def completeTask (t : Task) (start_time end_time : ℚ) : Task :=
  { t with
    execution_start_time := some start_time
    execution_end_time := some end_time
    status := TaskStatus.completed }

/-! ## Simulation loop, step 6 (src/core/simulator.py lines 188-198) -/

/-- One iteration of the `for task, srv in assignments` loop of
`Simulator.run` (src/core/simulator.py lines 189-198): mark the task completed
with the window `[now, now + srv.latency]`, then deduct the task's demands from
availability once more, clamped below at zero
(`max(srv.available_cpu - task.cpu_demand, 0)` and its two siblings; the
storage deduction uses `task.data_size_kb`, the memory deduction uses
`task.memory_demand`). -/
def applyPair (now : ℚ) (t : Task) (srv : Server) : Task × Server :=
  (completeTask t now (now + srv.latency),
    { srv with
      available_cpu := max (srv.available_cpu - t.cpu_demand) 0
      available_storage := max (srv.available_storage - t.data_size_kb) 0
      available_memory := max (srv.available_memory - t.memory_demand) 0 })

/-- The whole application step of `Simulator.run` over the server list, with
assignments referring to servers by index. -/
def applyAssignments (now : ℚ) (asg : List (Task × ℕ)) (servers : List Server) :
    List Server :=
  asg.foldl
    (fun svs p =>
      match svs[p.2]? with
      | some srv => svs.set p.2 (applyPair now p.1 srv).2
      | none => svs)
    servers

/-! ## Greedy tier scheduler (src/scheduler/rule_scheduler.py) -/

/-- The tie-break key of `RuleBasedScheduler.schedule`:
`s.available_cpu + s.available_memory + s.available_storage`. -/
def sumAvail (s : Server) : ℚ :=
  s.available_cpu + s.available_memory + s.available_storage

/-- Python's `min(xs, key=key)` on a list: the first element attaining the
minimal key ( `min` only replaces the current best on a strictly smaller key). -/
def pythonMinBy (key : ℕ → ℚ) (l : List ℕ) : Option ℕ :=
  l.foldl
    (fun best i =>
      match best with
      | none => some i
      | some b => if key i < key b then some i else some b)
    none

/-- Python's `str.startswith`, computed on the underlying character lists. -/
def strStartsWith (s tier : String) : Bool :=
  tier.data.isPrefixOf s.data

/-- One tier block of `RuleBasedScheduler.schedule`: filter the servers of the
tier that `can_allocate` the task, pick the eligible one minimizing the summed
availability, and `allocate` on it with `release_time = now + latency`.
Returns the chosen server index (if any) and the updated server list. -/
def tryTier (tier : String) (t : Task) (now : ℚ) (servers : List Server) :
    Option ℕ × List Server :=
  let eligible := (List.range servers.length).filter
    (fun i =>
      match servers[i]? with
      | some s =>
          strStartsWith s.name tier &&
            canAllocate s t.cpu_demand t.storage_demand t.memory_demand
      | none => false)
  match pythonMinBy (fun i => ((servers[i]?).map sumAvail).getD 0) eligible with
  | some i =>
      match servers[i]? with
      | some s =>
          let s' := (allocate s t.id t.cpu_demand t.storage_demand t.memory_demand
            (now + s.latency)).2
          (some i, servers.set i s')
      | none => (none, servers)
  | none => (none, servers)

/-- The per-task body of `RuleBasedScheduler.schedule`: Edge first, then
Regional, then Cloud; `none` when no tier admits the task. -/
def scheduleTask (t : Task) (now : ℚ) (servers : List Server) :
    Option ℕ × List Server :=
  match tryTier "Edge" t now servers with
  | (some i, svs) => (some i, svs)
  | (none, _) =>
    match tryTier "Regional" t now servers with
    | (some i, svs) => (some i, svs)
    | (none, _) =>
      match tryTier "Cloud" t now servers with
      | (some i, svs) => (some i, svs)
      | (none, _) => (none, servers)

/-- `RuleBasedScheduler.schedule` (src/scheduler/rule_scheduler.py lines 4-55).
Line 53 of the source runs `results.append((task, server))` unconditionally,
so every submitted task appears in the returned list, paired with `none`
when no tier admitted it. -/
def schedule (tasks : List Task) (servers : List Server) (current_time : ℚ) :
    List (Task × Option ℕ) × List Server :=
  tasks.foldl
    (fun acc t =>
      let r := scheduleTask t current_time acc.2
      (acc.1 ++ [(t, r.1)], r.2))
    ([], servers)

/-! ## Workload generator (src/workload/generator.py) -/

/-- The `WorkloadGenerator` constructor state: the four `WORKLOAD` values it
copies at construction. -/
structure WorkloadGenerator where
  start_devices : ℕ
  max_devices : ℕ
  increment : ℕ
  data_per_device_kb : ℚ
deriving DecidableEq, Repr

/-- The generator built from the configured `WORKLOAD` values. -/
def defaultGenerator : WorkloadGenerator :=
  ⟨WORKLOAD_start_devices, WORKLOAD_max_devices, WORKLOAD_increment,
    WORKLOAD_data_per_device_kb⟩

/-- `WorkloadGenerator.generate_tasks` (src/workload/generator.py lines 37-71).
`random.choice([1, 2, 3])` is modelled by the oracle `priority`; each task's
demand quadruple is `data_per_device_kb` and `Task.__init__` sets
`data_size_kb` from the global `WORKLOAD` entry. -/
def generateTasks (g : WorkloadGenerator) (round_no : ℕ) (priority : ℕ → ℕ) :
    List Task :=
  let c0 := g.start_devices + (round_no - 1) * g.increment
  let current_devices := if c0 > g.max_devices then g.max_devices else c0
  (List.range current_devices).map
    (fun device_id =>
      { id := device_id
        cpu_demand := g.data_per_device_kb
        storage_demand := g.data_per_device_kb
        memory_demand := g.data_per_device_kb
        bandwidth := g.data_per_device_kb
        latency := none
        priority := priority device_id
        data_size_kb := WORKLOAD_data_per_device_kb
        execution_start_time := none
        execution_end_time := none
        status := TaskStatus.created })

/-! ## Mobility manager counters (src/mobility/manager.py)

`MobilityManager.update_all` walks all entities; each handover that fires runs
`self.ho_count += 1` and `self.ho_delay += handover_latency_ms`, and the method
returns `(self.ho_count, self.ho_delay)` — the instance counters themselves.
The per-entity geometry deciding which handovers fire is abstracted into the
number `fired` of handovers of the round; the counter and return semantics are
taken verbatim from the source. -/

/-- The `ho_count` / `ho_delay` instance counters of `MobilityManager`,
initialised to zero in `__init__`. -/
structure MMCounters where
  ho_count : ℕ
  ho_delay : ℕ
deriving DecidableEq, Repr

/-- `MobilityManager.update_all` at the counter level: add this round's fired
handovers to both instance counters and return them (the source returns
`self.ho_count, self.ho_delay` after the loop). -/
def updateAll (st : MMCounters) (fired : ℕ) : MMCounters :=
  ⟨st.ho_count + fired, st.ho_delay + fired * MOBILITY_handover_latency_ms⟩

/-- The handover-delay amount the simulation loop adds to the global clock over
a run: each round executes `ho_count, ho_delay = update_all(); current_time +=
ho_delay` (src/core/simulator.py lines 160-161), with `rounds` listing the
handovers fired per round. -/
def simClockDelta (st : MMCounters) : List ℕ → ℕ
  | [] => 0
  | fired :: rest =>
      let st' := updateAll st fired
      st'.ho_delay + simClockDelta st' rest

/-- Number of times each round's handover delay ends up charged to the clock:
a handover fired in the round at position `i` (0-based) of an `n`-round run is
charged in rounds `i, i+1, …, n−1`, i.e. `n − i` times. -/
def chargeWeight : List ℕ → ℕ
  | [] => 0
  | fired :: rest => (rest.length + 1) * fired + chargeWeight rest

/-! ## Mobile entities (src/mobility/mobile_entity.py)

Positions and signal strengths are floats computed with `math.hypot` and
`math.log10`; they are modelled over the reals, so the definitions of this
section are noncomputable. -/

/-- A base-station node as seen by `MobileEntity`: only the 2D coordinates
`server.x` / `server.y` are read by `signal_strength`. -/
structure BSNode where
  x : ℝ
  y : ℝ

/-- The `MobileEntity` class of src/mobility/mobile_entity.py, with a 2D
position (the list/tuple branch of the source). -/
structure MobileEntity where
  id : ℕ
  position : ℝ × ℝ
  speed : ℝ
  attached_server : Option BSNode
  ho_latency : ℝ
  ho_threshold_db : ℝ

/-- `MobileEntity.signal_strength` (src/mobility/mobile_entity.py lines 44-62),
2D branch: `dist = hypot(pos[0]-sx, pos[1]-sy)`; the result is
`-20 * log10(max(dist, 1))`. -/
noncomputable def signalStrength (ent : MobileEntity) (server : BSNode) : ℝ :=
  let dist := Real.sqrt ((ent.position.1 - server.x) ^ 2 + (ent.position.2 - server.y) ^ 2);
  (-20) * Real.logb 10 (max dist 1)

section
open Classical

/-- Python's `max(xs, key=key)` on a nonempty list `x :: l`: the first element
attaining the maximal key (`max` only replaces the current best on a strictly
greater key). -/
noncomputable def pythonMaxBy (key : BSNode → ℝ) (x : BSNode) (l : List BSNode) : BSNode :=
  l.foldl (fun best y => if key y > key best then y else best) x

/-- `MobileEntity.pick_best_bs` (src/mobility/mobile_entity.py lines 64-76) on
a nonempty server list: take the signal-strongest server; return it when
unattached or when its signal beats the attached one's by at least
`ho_threshold_db`, otherwise keep the attached server.  Python's
`max(servers, key=...)` raises on an empty list, hence the `Option` result. -/
noncomputable def pickBestBs (ent : MobileEntity) (servers : List BSNode) : Option BSNode :=
  match servers with
  | [] => none
  | n :: rest =>
    let best_server := pythonMaxBy (signalStrength ent) n rest
    match ent.attached_server with
    | none => some best_server
    | some att =>
        if signalStrength ent best_server - signalStrength ent att ≥ ent.ho_threshold_db then
          some best_server
        else
          some att

end

/-! ## Concrete states used by witnesses and counterexamples -/

/-- A small edge server with full availability. -/
def sEdge : Server :=
  { name := "Edge_1", cpu_capacity := 10, storage_capacity := 10, memory_capacity := 10,
    bandwidth := 1000, latency := 5, cost := 1, tx_cost := 1,
    available_cpu := 10, available_storage := 10, available_memory := 10,
    running_tasks := [], total_data_transferred_kb := 0, total_cost := 0 }

/-- A small regional server with full availability. -/
def sRegional : Server := { sEdge with name := "Regional_1" }

/-- A small cloud server with full availability. -/
def sCloud : Server := { sEdge with name := "Cloud_1" }

/-- A small task demanding 4 units of each resource. -/
def tSmall : Task :=
  { id := 0, cpu_demand := 4, storage_demand := 4, memory_demand := 4, bandwidth := 4,
    latency := none, priority := 1, data_size_kb := 4,
    execution_start_time := none, execution_end_time := none, status := TaskStatus.created }

/-- A task demanding more of every resource than any server of `svsThreeTiers`
can offer. -/
def tBig : Task :=
  { tSmall with
    id := 42, cpu_demand := 1000000, storage_demand := 1000000,
    memory_demand := 1000000 }

/-- A server fleet with one node per tier. -/
def svsThreeTiers : List Server := [sEdge, sRegional, sCloud]

/-- `sEdge` holding one 4-unit reservation, with availability consistent with
the ledger equality invariant (`10 − 4 = 6` on all three resources). -/
def sWithRes : Server :=
  { sEdge with
    available_cpu := 6, available_storage := 6, available_memory := 6,
    running_tasks := [(0, ⟨4, 4, 4, 5⟩)] }

/-- `sEdge` with zero bandwidth capacity and 500 kB transferred. -/
def sBW0 : Server := { sEdge with bandwidth := 0, total_data_transferred_kb := 500 }

/-- `sEdge` with bandwidth 1000 and 500 kB transferred (the spec's congestion
example). -/
def sBW1000 : Server := { sEdge with total_data_transferred_kb := 500 }

/-- Base station at `(0, 1)`: distance 1 from the origin, signal `0`. -/
def bsA : BSNode := ⟨0, 1⟩

/-- Base station at `(0, 100)`: distance 100 from the origin, signal `−40`. -/
def bsB : BSNode := ⟨0, 100⟩

/-- A mobile entity at the origin attached to `bsA`, with the configured
handover latency (20 ms) and threshold (3 dB). -/
def entO : MobileEntity :=
  { id := 0, position := (0, 0), speed := 15, attached_server := some bsA,
    ho_latency := 20, ho_threshold_db := 3 }

/-! ## Helper lemmas on the ledger -/

/-- `canAllocate` unfolded to the three availability comparisons. -/
lemma canAllocate_iff (s : Server) (c st m : ℚ) :
    canAllocate s c st m = true ↔
      c ≤ s.available_cpu ∧ st ≤ s.available_storage ∧ m ≤ s.available_memory := by
  simp [canAllocate, ge_iff_le, and_assoc]

/-- When the task key is fresh, `dictInsert` appends the new entry. -/
lemma dictInsert_fresh (k : ℕ) (v : Reservation) (l : List (ℕ × Reservation))
    (h : ∀ p ∈ l, p.1 ≠ k) : dictInsert k v l = l ++ [(k, v)] := by
  unfold dictInsert
  rw [if_neg]
  simp only [List.any_eq_true, decide_eq_true_eq, not_exists, not_and]
  intro p hp
  exact h p hp

/-- `resSum` distributes over list append. -/
lemma resSum_append (f : Reservation → ℚ) (l₁ l₂ : List (ℕ × Reservation)) :
    resSum f (l₁ ++ l₂) = resSum f l₁ + resSum f l₂ := by
  simp [resSum]

/-- Splitting `resSum` along a filter and its complement. -/
lemma resSum_filter_split (f : Reservation → ℚ) (p : ℕ × Reservation → Bool)
    (l : List (ℕ × Reservation)) :
    resSum f (l.filter p) + resSum f (l.filter fun a => !(p a)) = resSum f l := by
  induction l with
  | nil => simp [resSum]
  | cons a l ih =>
      cases h : p a <;> simp [resSum, List.filter_cons, h] at ih ⊢ <;> linarith

/-- `resSum` of a list of non-negative reservations is non-negative. -/
lemma resSum_nonneg (f : Reservation → ℚ) (l : List (ℕ × Reservation))
    (h : ∀ p ∈ l, 0 ≤ f p.2) : 0 ≤ resSum f l := by
  induction l with
  | nil => simp [resSum]
  | cons a l ih =>
      simp only [resSum, List.map_cons, List.sum_cons]
      have h1 := h a (by simp)
      have h2 : 0 ≤ resSum f l := ih (fun p hp => h p (by simp [hp]))
      simp only [resSum] at h2
      linarith

/-- The successful branch of `allocate` as a record equation. -/
lemma allocate_success (s : Server) (tid : ℕ) (c st m rt : ℚ)
    (h : canAllocate s c st m = true) :
    (allocate s tid c st m rt).2 =
      { s with
        available_cpu := s.available_cpu - c
        available_storage := s.available_storage - st
        available_memory := s.available_memory - m
        running_tasks := dictInsert tid ⟨c, st, m, rt⟩ s.running_tasks
        total_data_transferred_kb :=
          s.total_data_transferred_kb + WORKLOAD_data_per_device_kb
        total_cost :=
          s.total_cost + (c * s.cost) + (WORKLOAD_data_per_device_kb * s.tx_cost) } := by
  simp [allocate, h]

/-- The failing branch of `allocate` leaves the state untouched. -/
lemma allocate_fail (s : Server) (tid : ℕ) (c st m rt : ℚ)
    (h : canAllocate s c st m = false) :
    (allocate s tid c st m rt).2 = s := by
  simp [allocate, h]

/-! ## Claim C6 -/

/-- C6: `allocate` succeeds and performs its deductions exactly when
`can_allocate` holds for the demand triple; on success it deducts the three
quantities, records the reservation keyed by the task id with its release time,
and accumulates the transferred-data and cost counters; on failure it returns
failure with the server state completely unchanged — no partial deduction, no
reservation, no counter change. -/
theorem allocate_atomic (s : Server) (tid : ℕ) (c st m rt : ℚ) :
    ((allocate s tid c st m rt).1 = canAllocate s c st m) ∧
    (canAllocate s c st m = false → (allocate s tid c st m rt).2 = s) ∧
    (canAllocate s c st m = true →
      (allocate s tid c st m rt).2.available_cpu = s.available_cpu - c ∧
      (allocate s tid c st m rt).2.available_storage = s.available_storage - st ∧
      (allocate s tid c st m rt).2.available_memory = s.available_memory - m ∧
      (allocate s tid c st m rt).2.running_tasks
        = dictInsert tid ⟨c, st, m, rt⟩ s.running_tasks ∧
      (allocate s tid c st m rt).2.total_data_transferred_kb
        = s.total_data_transferred_kb + WORKLOAD_data_per_device_kb ∧
      (allocate s tid c st m rt).2.total_cost
        = s.total_cost + (c * s.cost) + (WORKLOAD_data_per_device_kb * s.tx_cost)) := by
  refine ⟨?_, fun h => allocate_fail s tid c st m rt h, fun h => ?_⟩
  · unfold allocate
    cases h : canAllocate s c st m <;> simp [h]
  · rw [allocate_success s tid c st m rt h]
    exact ⟨rfl, rfl, rfl, rfl, rfl, rfl⟩

/-- Witness for C6 at a concrete server and demand triple. -/
theorem allocate_atomic_witness :
    ((allocate sEdge 1 2 3 4 5).1 = canAllocate sEdge 2 3 4) ∧
    (canAllocate sEdge 2 3 4 = false → (allocate sEdge 1 2 3 4 5).2 = sEdge) ∧
    (canAllocate sEdge 2 3 4 = true →
      (allocate sEdge 1 2 3 4 5).2.available_cpu = sEdge.available_cpu - 2 ∧
      (allocate sEdge 1 2 3 4 5).2.available_storage = sEdge.available_storage - 3 ∧
      (allocate sEdge 1 2 3 4 5).2.available_memory = sEdge.available_memory - 4 ∧
      (allocate sEdge 1 2 3 4 5).2.running_tasks
        = dictInsert 1 ⟨2, 3, 4, 5⟩ sEdge.running_tasks ∧
      (allocate sEdge 1 2 3 4 5).2.total_data_transferred_kb
        = sEdge.total_data_transferred_kb + WORKLOAD_data_per_device_kb ∧
      (allocate sEdge 1 2 3 4 5).2.total_cost
        = sEdge.total_cost + (2 * sEdge.cost) +
            (WORKLOAD_data_per_device_kb * sEdge.tx_cost)) :=
  allocate_atomic sEdge 1 2 3 4 5

/-! ## Claim C10 -/

/-- C10: every successful `allocate` increments `total_data_transferred_kb` by
the globally configured `WORKLOAD["data_per_device_kb"]` constant and
`total_cost` by `cpu_demand * cost + data_per_device_kb * tx_cost`; the item's
own declared data size does not even reach `allocate`, so the two counters
depend only on the number of admissions and the cpu demand. -/
theorem allocate_counters_global_constant (s : Server) (tid : ℕ) (c st m rt : ℚ)
    (h : canAllocate s c st m = true) :
    (allocate s tid c st m rt).2.total_data_transferred_kb
      = s.total_data_transferred_kb + WORKLOAD_data_per_device_kb ∧
    (allocate s tid c st m rt).2.total_cost
      = s.total_cost + (c * s.cost) + (WORKLOAD_data_per_device_kb * s.tx_cost) := by
  rw [allocate_success s tid c st m rt h]
  exact ⟨rfl, rfl⟩

/-- Witness for C10 at a concrete server. -/
theorem allocate_counters_global_constant_witness :
    (allocate sEdge 1 2 3 4 5).2.total_data_transferred_kb
      = sEdge.total_data_transferred_kb + WORKLOAD_data_per_device_kb ∧
    (allocate sEdge 1 2 3 4 5).2.total_cost
      = sEdge.total_cost + (2 * sEdge.cost) + (WORKLOAD_data_per_device_kb * sEdge.tx_cost) :=
  allocate_counters_global_constant sEdge 1 2 3 4 5 (by decide)

/-! ## Claim C7 -/

/-- C7 counterexample: on a server with zero bandwidth capacity the code of
`congestion` divides by zero — the Python body has no guard and raises
`ZeroDivisionError` — instead of returning the neutral value `0.0` claimed by
the specification. -/
theorem congestion_zero_bandwidth_counterexample :
    congestion sBW0 = Except.error () ∧ congestion sBW0 ≠ Except.ok 0 := by
  constructor
  · rfl
  · intro h
    have he : congestion sBW0 = Except.error () := rfl
    rw [he] at h
    exact Except.noConfusion h

/-- C7 (amended): `congestion()` returns `100 × (total data transferred ÷
bandwidth)` rounded to two decimals when the bandwidth is non-zero; when the
bandwidth capacity is zero the division fault propagates (`ZeroDivisionError`)
rather than being absorbed into a neutral `0.0`. -/
theorem congestion_formula (s : Server) :
    (s.bandwidth ≠ 0 →
      congestion s = Except.ok (round2 ((s.total_data_transferred_kb / s.bandwidth) * 100))) ∧
    (s.bandwidth = 0 → congestion s = Except.error ()) := by
  constructor <;> intro h <;> simp [congestion, h]

/-- Witness for C7 at the specification's own example: 500 kB over bandwidth
1000 gives congestion 50. -/
theorem congestion_formula_witness : congestion sBW1000 = Except.ok 50 := by
  have h := (congestion_formula sBW1000).1 (by decide)
  rw [h]
  congr 1
  norm_num [sBW1000, sEdge, round2, round_eq]

/-! ## Claim C1 -/

/-- C1 counterexample: applying a scheduler-returned pair in step 6 of the
simulation loop does change node availability — a concrete 4-unit task drops
the node's available CPU from 10 to 6, refuting the claim that the application
step leaves `available_cpu`, `available_storage` and `available_memory` of
every node unchanged. -/
theorem apply_step_mutates_counterexample :
    ¬ ((applyAssignments 0 [(tSmall, 0)] [sEdge]).map Server.available_cpu
        = [sEdge].map Server.available_cpu) := by
  simp [applyAssignments, applyPair, completeTask, sEdge, tSmall]
  norm_num

/-- C1 (amended): for every scheduler-returned pair, step 6 of the simulation
loop records the completion window (start = now, end = now + node latency) and
ALSO deducts the item's demand from node availability a second time, clamped
below at zero — so whenever demand and availability are positive, all three
availabilities strictly decrease in the application step. -/
theorem apply_step_second_deduction (now : ℚ) (t : Task) (s : Server)
    (hc : 0 < t.cpu_demand) (hd : 0 < t.data_size_kb) (hm : 0 < t.memory_demand)
    (hac : 0 < s.available_cpu) (has : 0 < s.available_storage)
    (ham : 0 < s.available_memory) :
    ((applyPair now t s).1.execution_start_time = some now ∧
     (applyPair now t s).1.execution_end_time = some (now + s.latency) ∧
     (applyPair now t s).1.status = TaskStatus.completed) ∧
    ((applyPair now t s).2.available_cpu < s.available_cpu ∧
     (applyPair now t s).2.available_storage < s.available_storage ∧
     (applyPair now t s).2.available_memory < s.available_memory) := by
  refine ⟨⟨rfl, rfl, rfl⟩, ?_, ?_, ?_⟩
  · exact max_lt (by linarith) hac
  · exact max_lt (by linarith) has
  · exact max_lt (by linarith) ham

/-- Witness for C1's amended theorem at a concrete pair. -/
theorem apply_step_second_deduction_witness :
    ((applyPair 0 tSmall sEdge).1.execution_start_time = some 0 ∧
     (applyPair 0 tSmall sEdge).1.execution_end_time = some (0 + sEdge.latency) ∧
     (applyPair 0 tSmall sEdge).1.status = TaskStatus.completed) ∧
    ((applyPair 0 tSmall sEdge).2.available_cpu < sEdge.available_cpu ∧
     (applyPair 0 tSmall sEdge).2.available_storage < sEdge.available_storage ∧
     (applyPair 0 tSmall sEdge).2.available_memory < sEdge.available_memory) :=
  apply_step_second_deduction 0 tSmall sEdge (by decide) (by decide) (by decide)
    (by decide) (by decide) (by decide)

/-! ## Claim C5 -/

/-- `release_completed` does nothing when no outstanding reservation has come
due. -/
lemma releaseCompleted_of_none_due (s : Server) (now : ℚ)
    (h : ∀ p ∈ s.running_tasks, ¬ (now ≥ p.2.release_time)) :
    releaseCompleted s now = s := by
  have hnil : s.running_tasks.filter (fun p => decide (now ≥ p.2.release_time)) = [] := by
    rw [List.filter_eq_nil_iff]
    intro p hp
    simpa using h p hp
  have hself : s.running_tasks.filter (fun p => !(decide (now ≥ p.2.release_time)))
      = s.running_tasks := by
    rw [List.filter_eq_self]
    intro p hp
    simpa using h p hp
  unfold releaseCompleted
  rw [hnil, hself]
  simp

/-- C5: on any ledger state whose outstanding reservations all release strictly
after `rt` (each interleaved allocation is released at its own later time, no
double credit), a successful `allocate` with release time `rt`, immediately
followed by `release_completed(now = rt)`, restores all three availabilities
exactly to their pre-allocation values; and `release_completed` is idempotent —
a second call with the same `now` changes nothing, so resources are freed
exactly once. -/
theorem allocate_release_roundtrip_idem (s : Server) (tid : ℕ) (c st m rt : ℚ)
    (s₀ : Server) (now : ℚ)
    (hfresh : ∀ p ∈ s.running_tasks, p.1 ≠ tid)
    (hlater : ∀ p ∈ s.running_tasks, rt < p.2.release_time)
    (hca : canAllocate s c st m = true) :
    ((releaseCompleted (allocate s tid c st m rt).2 rt).available_cpu = s.available_cpu ∧
     (releaseCompleted (allocate s tid c st m rt).2 rt).available_storage
        = s.available_storage ∧
     (releaseCompleted (allocate s tid c st m rt).2 rt).available_memory
        = s.available_memory) ∧
    releaseCompleted (releaseCompleted s₀ now) now = releaseCompleted s₀ now := by
  constructor
  · rw [allocate_success s tid c st m rt hca,
      dictInsert_fresh tid ⟨c, st, m, rt⟩ s.running_tasks hfresh]
    have hnil : s.running_tasks.filter (fun p => decide (rt ≥ p.2.release_time)) = [] := by
      rw [List.filter_eq_nil_iff]
      intro p hp
      simpa using not_le.mpr (hlater p hp)
    unfold releaseCompleted
    simp only [List.filter_append, hnil, List.nil_append]
    simp [resSum]
  · have hmem : ∀ p ∈ (releaseCompleted s₀ now).running_tasks,
        ¬ (now ≥ p.2.release_time) := by
      intro p hp
      unfold releaseCompleted at hp
      simp only [List.mem_filter, Bool.not_eq_true', decide_eq_false_iff_not] at hp
      exact hp.2
    exact releaseCompleted_of_none_due (releaseCompleted s₀ now) now hmem

/-- Witness for C5 at a concrete round trip on `sEdge` and an idempotent
release on `sWithRes`. -/
theorem allocate_release_roundtrip_idem_witness :
    ((releaseCompleted (allocate sEdge 1 2 3 4 5).2 5).available_cpu = sEdge.available_cpu ∧
     (releaseCompleted (allocate sEdge 1 2 3 4 5).2 5).available_storage
        = sEdge.available_storage ∧
     (releaseCompleted (allocate sEdge 1 2 3 4 5).2 5).available_memory
        = sEdge.available_memory) ∧
    releaseCompleted (releaseCompleted sWithRes 6) 6 = releaseCompleted sWithRes 6 :=
  allocate_release_roundtrip_idem sEdge 1 2 3 4 5 sWithRes 6
    (by decide) (by decide) (by decide)

/-! ## Claim C3 -/

/-- `allocate` with a fresh task id preserves the ledger equality invariant. -/
lemma allocate_preserves_ledgerInv (s : Server) (tid : ℕ) (c st m rt : ℚ)
    (hfresh : ∀ p ∈ s.running_tasks, p.1 ≠ tid) (hinv : LedgerInv s) :
    LedgerInv (allocate s tid c st m rt).2 := by
  cases h : canAllocate s c st m
  · rw [allocate_fail _ _ _ _ _ _ h]
    exact hinv
  · rw [allocate_success _ _ _ _ _ _ h, dictInsert_fresh _ _ _ hfresh]
    obtain ⟨h1, h2, h3⟩ := hinv
    unfold LedgerInv
    dsimp only
    simp only [resSum, List.map_append, List.sum_append, List.map_cons, List.map_nil,
      List.sum_cons, List.sum_nil] at h1 h2 h3 ⊢
    refine ⟨by linarith, by linarith, by linarith⟩

/-- `release_completed` preserves the ledger equality invariant. -/
lemma releaseCompleted_preserves_ledgerInv (s : Server) (now : ℚ)
    (hinv : LedgerInv s) : LedgerInv (releaseCompleted s now) := by
  obtain ⟨h1, h2, h3⟩ := hinv
  have hc := resSum_filter_split (fun r => r.cpu)
    (fun p => decide (now ≥ p.2.release_time)) s.running_tasks
  have hs := resSum_filter_split (fun r => r.storage)
    (fun p => decide (now ≥ p.2.release_time)) s.running_tasks
  have hm := resSum_filter_split (fun r => r.memory)
    (fun p => decide (now ≥ p.2.release_time)) s.running_tasks
  unfold LedgerInv releaseCompleted
  dsimp only
  simp only [resSum] at h1 h2 h3 hc hs hm ⊢
  refine ⟨by linarith, by linarith, by linarith⟩

/-- `allocate` with non-negative demands and a fresh task id preserves the
bounds invariant. -/
lemma allocate_preserves_boundsInv (s : Server) (tid : ℕ) (c st m rt : ℚ)
    (hc : 0 ≤ c) (hst : 0 ≤ st) (hm : 0 ≤ m)
    (hfresh : ∀ p ∈ s.running_tasks, p.1 ≠ tid) (hinv : BoundsInv s) :
    BoundsInv (allocate s tid c st m rt).2 := by
  cases h : canAllocate s c st m
  · rw [allocate_fail _ _ _ _ _ _ h]
    exact hinv
  · obtain ⟨hca, hcst, hcm⟩ := (canAllocate_iff s c st m).mp h
    rw [allocate_success _ _ _ _ _ _ h, dictInsert_fresh _ _ _ hfresh]
    obtain ⟨⟨b1, b2⟩, ⟨b3, b4⟩, ⟨b5, b6⟩, bres⟩ := hinv
    unfold BoundsInv
    dsimp only
    simp only [resSum, List.map_append, List.sum_append, List.map_cons, List.map_nil,
      List.sum_cons, List.sum_nil] at b2 b4 b6 ⊢
    refine ⟨⟨by linarith, by linarith⟩, ⟨by linarith, by linarith⟩,
      ⟨by linarith, by linarith⟩, ?_⟩
    intro p hp
    rcases List.mem_append.mp hp with hmem | hmem
    · exact bres p hmem
    · simp only [List.mem_singleton] at hmem
      subst hmem
      exact ⟨hc, hst, hm⟩

/-- `release_completed` preserves the bounds invariant. -/
lemma releaseCompleted_preserves_boundsInv (s : Server) (now : ℚ)
    (hinv : BoundsInv s) : BoundsInv (releaseCompleted s now) := by
  obtain ⟨⟨b1, b2⟩, ⟨b3, b4⟩, ⟨b5, b6⟩, bres⟩ := hinv
  have hcsum := resSum_filter_split (fun r => r.cpu)
    (fun p => decide (now ≥ p.2.release_time)) s.running_tasks
  have hssum := resSum_filter_split (fun r => r.storage)
    (fun p => decide (now ≥ p.2.release_time)) s.running_tasks
  have hmsum := resSum_filter_split (fun r => r.memory)
    (fun p => decide (now ≥ p.2.release_time)) s.running_tasks
  have hcpos : 0 ≤ resSum (fun r => r.cpu)
      (s.running_tasks.filter (fun p => decide (now ≥ p.2.release_time))) :=
    resSum_nonneg _ _ (fun p hp => (bres p (List.mem_of_mem_filter hp)).1)
  have hspos : 0 ≤ resSum (fun r => r.storage)
      (s.running_tasks.filter (fun p => decide (now ≥ p.2.release_time))) :=
    resSum_nonneg _ _ (fun p hp => (bres p (List.mem_of_mem_filter hp)).2.1)
  have hmpos : 0 ≤ resSum (fun r => r.memory)
      (s.running_tasks.filter (fun p => decide (now ≥ p.2.release_time))) :=
    resSum_nonneg _ _ (fun p hp => (bres p (List.mem_of_mem_filter hp)).2.2)
  unfold BoundsInv releaseCompleted
  dsimp only
  simp only [resSum] at hcsum hssum hmsum hcpos hspos hmpos b2 b4 b6 ⊢
  refine ⟨⟨by linarith, by linarith⟩, ⟨by linarith, by linarith⟩,
    ⟨by linarith, by linarith⟩, ?_⟩
  intro p hp
  exact bres p (List.mem_of_mem_filter hp)

/-- The simulation loop's clamped second deduction preserves the bounds
invariant (though not the equality invariant). -/
lemma applyPair_preserves_boundsInv (now : ℚ) (t : Task) (s : Server)
    (hc : 0 ≤ t.cpu_demand) (hd : 0 ≤ t.data_size_kb) (hm : 0 ≤ t.memory_demand)
    (hinv : BoundsInv s) : BoundsInv (applyPair now t s).2 := by
  obtain ⟨⟨b1, b2⟩, ⟨b3, b4⟩, ⟨b5, b6⟩, bres⟩ := hinv
  have hmc : max (s.available_cpu - t.cpu_demand) 0 ≤ s.available_cpu :=
    max_le (by linarith) b1
  have hms : max (s.available_storage - t.data_size_kb) 0 ≤ s.available_storage :=
    max_le (by linarith) b3
  have hmm : max (s.available_memory - t.memory_demand) 0 ≤ s.available_memory :=
    max_le (by linarith) b5
  unfold BoundsInv applyPair
  dsimp only
  exact ⟨⟨le_max_right _ _, by linarith⟩, ⟨le_max_right _ _, by linarith⟩,
    ⟨le_max_right _ _, by linarith⟩, bres⟩

/-- The bounds invariant yields the claimed interval `0 ≤ available_X ≤
capacity_X` on all three resources. -/
lemma boundsInv_bounds (s : Server) (hinv : BoundsInv s) :
    (0 ≤ s.available_cpu ∧ s.available_cpu ≤ s.cpu_capacity) ∧
    (0 ≤ s.available_storage ∧ s.available_storage ≤ s.storage_capacity) ∧
    (0 ≤ s.available_memory ∧ s.available_memory ≤ s.memory_capacity) := by
  obtain ⟨⟨b1, b2⟩, ⟨b3, b4⟩, ⟨b5, b6⟩, bres⟩ := hinv
  have hc : 0 ≤ resSum (fun r => r.cpu) s.running_tasks :=
    resSum_nonneg _ _ (fun p hp => (bres p hp).1)
  have hs : 0 ≤ resSum (fun r => r.storage) s.running_tasks :=
    resSum_nonneg _ _ (fun p hp => (bres p hp).2.1)
  have hm : 0 ≤ resSum (fun r => r.memory) s.running_tasks :=
    resSum_nonneg _ _ (fun p hp => (bres p hp).2.2)
  exact ⟨⟨b1, by linarith⟩, ⟨b3, by linarith⟩, ⟨b5, by linarith⟩⟩

/-- C3 counterexample: a ledger satisfying `available_X = capacity_X −
Σ(reservations on X)` stops satisfying it after the simulation loop's
application step, because step 6 of `Simulator.run` deducts the task's demand a
second time without recording any reservation.  So the equality does not hold
after every per-round step, refuting the claim. -/
theorem ledger_equality_broken_by_apply_step :
    LedgerInv sWithRes ∧ ¬ LedgerInv (applyPair 0 tSmall sWithRes).2 := by
  constructor
  · norm_num [LedgerInv, sWithRes, sEdge, resSum]
  · intro hinv
    have h1 := hinv.1
    norm_num [applyPair, sWithRes, sEdge, tSmall, resSum, max_def] at h1

/-- C3 (amended): the ledger equality `available_X = capacity_X −
Σ(reservations on X)` is preserved by every `allocate` (with a fresh task id)
and every `release_completed`, but the simulation loop's application step
breaks it (see the counterexample); the bounds `0 ≤ available_X ≤ capacity_X`
are preserved by `allocate` (with non-negative demands), `release_completed`
and the application step alike. -/
theorem ledger_invariants :
    (∀ (s : Server) (tid : ℕ) (c st m rt : ℚ),
      (∀ p ∈ s.running_tasks, p.1 ≠ tid) → LedgerInv s →
      LedgerInv (allocate s tid c st m rt).2) ∧
    (∀ (s : Server) (now : ℚ), LedgerInv s → LedgerInv (releaseCompleted s now)) ∧
    (∀ (s : Server) (tid : ℕ) (c st m rt : ℚ),
      0 ≤ c → 0 ≤ st → 0 ≤ m → (∀ p ∈ s.running_tasks, p.1 ≠ tid) → BoundsInv s →
      BoundsInv (allocate s tid c st m rt).2) ∧
    (∀ (s : Server) (now : ℚ), BoundsInv s → BoundsInv (releaseCompleted s now)) ∧
    (∀ (now : ℚ) (t : Task) (s : Server),
      0 ≤ t.cpu_demand → 0 ≤ t.data_size_kb → 0 ≤ t.memory_demand → BoundsInv s →
      BoundsInv (applyPair now t s).2) ∧
    (∀ s : Server, BoundsInv s →
      (0 ≤ s.available_cpu ∧ s.available_cpu ≤ s.cpu_capacity) ∧
      (0 ≤ s.available_storage ∧ s.available_storage ≤ s.storage_capacity) ∧
      (0 ≤ s.available_memory ∧ s.available_memory ≤ s.memory_capacity)) :=
  ⟨fun s tid c st m rt hfresh hinv =>
      allocate_preserves_ledgerInv s tid c st m rt hfresh hinv,
    fun s now hinv => releaseCompleted_preserves_ledgerInv s now hinv,
    fun s tid c st m rt hc hst hm hfresh hinv =>
      allocate_preserves_boundsInv s tid c st m rt hc hst hm hfresh hinv,
    fun s now hinv => releaseCompleted_preserves_boundsInv s now hinv,
    fun now t s hc hd hm hinv => applyPair_preserves_boundsInv now t s hc hd hm hinv,
    fun s hinv => boundsInv_bounds s hinv⟩

/-- Witness for C3's amended theorem: the invariants hold through a concrete
allocate, release and apply step. -/
theorem ledger_invariants_witness :
    LedgerInv (allocate sEdge 1 2 3 4 5).2 ∧
    LedgerInv (releaseCompleted sWithRes 6) ∧
    BoundsInv (allocate sEdge 1 2 3 4 5).2 ∧
    BoundsInv (releaseCompleted sWithRes 6) ∧
    BoundsInv (applyPair 0 tSmall sWithRes).2 ∧
    ((0 ≤ sWithRes.available_cpu ∧ sWithRes.available_cpu ≤ sWithRes.cpu_capacity) ∧
      (0 ≤ sWithRes.available_storage ∧
        sWithRes.available_storage ≤ sWithRes.storage_capacity) ∧
      (0 ≤ sWithRes.available_memory ∧
        sWithRes.available_memory ≤ sWithRes.memory_capacity)) :=
  ⟨ledger_invariants.1 sEdge 1 2 3 4 5 (by decide)
      (by norm_num [LedgerInv, sEdge, resSum]),
    ledger_invariants.2.1 sWithRes 6 (by norm_num [LedgerInv, sWithRes, sEdge, resSum]),
    ledger_invariants.2.2.1 sEdge 1 2 3 4 5 (by decide) (by decide) (by decide)
      (by decide) (by norm_num [BoundsInv, sEdge, resSum]),
    ledger_invariants.2.2.2.1 sWithRes 6
      (by norm_num [BoundsInv, sWithRes, sEdge, resSum]),
    ledger_invariants.2.2.2.2.1 0 tSmall sWithRes (by decide) (by decide) (by decide)
      (by norm_num [BoundsInv, sWithRes, sEdge, resSum]),
    ledger_invariants.2.2.2.2.2 sWithRes
      (by norm_num [BoundsInv, sWithRes, sEdge, resSum])⟩

/-! ## Claim C2 -/

/-- C2 counterexample: on a fresh manager, one handover in round 1 and none in
round 2.  Round 2's `update_all` returns `(1, 20)` — the counters accumulated
since construction — not the claimed per-round `(0, 0)`; consequently the
simulation loop adds 20 ms to the clock in round 1 AND again in round 2,
charging the single handover's delay twice (40 ms total instead of 20 ms). -/
theorem updateAll_cumulative_counterexample :
    updateAll (updateAll ⟨0, 0⟩ 1) 0 = ⟨1, 20⟩ ∧
    (updateAll (updateAll ⟨0, 0⟩ 1) 0).ho_count ≠ 0 ∧
    (updateAll (updateAll ⟨0, 0⟩ 1) 0).ho_delay ≠ 0 ∧
    simClockDelta ⟨0, 0⟩ [1, 0] = 40 ∧
    simClockDelta ⟨0, 0⟩ [1, 0] ≠ 1 * MOBILITY_handover_latency_ms := by
  refine ⟨?_, ?_, ?_, ?_, ?_⟩ <;> decide

/-- C2 (amended): `update_all` returns the handover count and handover delay
accumulated over ALL rounds since the manager's construction (its running
instance counters after adding this round's events), and the simulation loop —
which adds the returned delay to the clock every round — therefore charges a
handover fired in the round at position `i` of an `n`-round run `n − i` times,
as captured by `chargeWeight`. -/
theorem updateAll_returns_cumulative :
    (∀ (st : MMCounters) (fired : ℕ),
      updateAll st fired
        = ⟨st.ho_count + fired, st.ho_delay + fired * MOBILITY_handover_latency_ms⟩) ∧
    (∀ (st : MMCounters) (rounds : List ℕ),
      simClockDelta st rounds
        = rounds.length * st.ho_delay
            + MOBILITY_handover_latency_ms * chargeWeight rounds) := by
  refine ⟨fun st fired => rfl, fun st rounds => ?_⟩
  induction rounds generalizing st with
  | nil => simp [simClockDelta, chargeWeight]
  | cons fired rest ih =>
      simp only [simClockDelta, updateAll, chargeWeight, ih, List.length_cons]
      ring

/-! ## Claim C4 -/

/-- C4: the greedy tier scheduler is claimed to return exactly the admitted
(item, node) pairs, with unadmitted items absent and
`failed_count = items_submitted − items_returned` counting them.  The code
appends `(task, server)` unconditionally (rule_scheduler.py line 53), so an
item no tier can admit — here `tBig`, which no server of the three-tier fleet
`can_allocate` — still appears in the returned sequence, paired with no node,
and the returned length always equals the number of submitted items, making
`failed_count` 0.  This theorem evaluates the scheduler at that failing
input. -/
theorem schedule_keeps_unadmitted_items :
    (∀ s ∈ svsThreeTiers,
      canAllocate s tBig.cpu_demand tBig.storage_demand tBig.memory_demand = false) ∧
    schedule [tBig] svsThreeTiers 0 = ([(tBig, none)], svsThreeTiers) ∧
    (schedule [tBig] svsThreeTiers 0).1.length = 1 := by
  refine ⟨?_, ?_, ?_⟩ <;> decide

/-! ## Claim C9 -/

/-- C9: for every round `r ≥ 1` the workload generator produces exactly
`min(start_devices + (r − 1) * increment, max_devices)` work items — the ramp
is silently capped at `max_devices` — and every generated item has CPU,
storage and memory demands all equal to the configured per-device data
size. -/
theorem generateTasks_ramp (g : WorkloadGenerator) (r : ℕ) (pr : ℕ → ℕ)
    (_hr : 1 ≤ r) :
    (generateTasks g r pr).length
      = min (g.start_devices + (r - 1) * g.increment) g.max_devices ∧
    ∀ t ∈ generateTasks g r pr,
      t.cpu_demand = g.data_per_device_kb ∧
      t.storage_demand = g.data_per_device_kb ∧
      t.memory_demand = g.data_per_device_kb := by
  constructor
  · simp only [generateTasks, List.length_map, List.length_range]
    split_ifs with h <;> omega
  · intro t ht
    simp only [generateTasks, List.mem_map, List.mem_range] at ht
    obtain ⟨i, _, rfl⟩ := ht
    exact ⟨rfl, rfl, rfl⟩

/-- Witness for C9 on the configured generator at round 3: 100 + 2·10 = 120
items, all with 10 kB demands. -/
theorem generateTasks_ramp_witness :
    (generateTasks defaultGenerator 3 (fun _ => 1)).length
      = min (defaultGenerator.start_devices + (3 - 1) * defaultGenerator.increment)
          defaultGenerator.max_devices ∧
    ∀ t ∈ generateTasks defaultGenerator 3 (fun _ => 1),
      t.cpu_demand = defaultGenerator.data_per_device_kb ∧
      t.storage_demand = defaultGenerator.data_per_device_kb ∧
      t.memory_demand = defaultGenerator.data_per_device_kb :=
  generateTasks_ramp defaultGenerator 3 (fun _ => 1) (by decide)

/-! ## Claim C8 -/

/-- The signal from the origin to `bsA` at `(0, 1)`: distance 1, clamped
distance 1, so `−20·log10(1) = 0`. -/
lemma signalStrength_entO_bsA : signalStrength entO bsA = 0 := by
  show (-20) * Real.logb 10
      (max (Real.sqrt ((entO.position.1 - bsA.x) ^ 2 + (entO.position.2 - bsA.y) ^ 2)) 1) = 0
  have h1 : (entO.position.1 - bsA.x) ^ 2 + (entO.position.2 - bsA.y) ^ 2 = 1 := by
    show ((0:ℝ) - 0) ^ 2 + ((0:ℝ) - 1) ^ 2 = 1
    norm_num
  rw [h1, Real.sqrt_one, max_self, Real.logb_one, mul_zero]

/-- The signal from the origin to `bsB` at `(0, 100)`: distance 100, so
`−20·log10(100) = −40`. -/
lemma signalStrength_entO_bsB : signalStrength entO bsB = -40 := by
  show (-20) * Real.logb 10
      (max (Real.sqrt ((entO.position.1 - bsB.x) ^ 2 + (entO.position.2 - bsB.y) ^ 2)) 1) = -40
  have h1 : (entO.position.1 - bsB.x) ^ 2 + (entO.position.2 - bsB.y) ^ 2 = 100 ^ 2 := by
    show ((0:ℝ) - 0) ^ 2 + ((0:ℝ) - 100) ^ 2 = 100 ^ 2
    norm_num
  rw [h1, Real.sqrt_sq (by norm_num : (0:ℝ) ≤ 100),
    max_eq_left (by norm_num : (1:ℝ) ≤ 100)]
  have h2 : (100:ℝ) = 10 ^ (2:ℕ) := by norm_num
  rw [h2, Real.logb_pow, Real.logb_self_eq_one (by norm_num : (1:ℝ) < 10)]
  norm_num

/-- Python's `max([bsA, bsB], key=signal)` keeps `bsA`, whose signal 0 beats
`bsB`'s −40. -/
lemma pythonMaxBy_entO : pythonMaxBy (signalStrength entO) bsA [bsB] = bsA := by
  show (if signalStrength entO bsB > signalStrength entO bsA then bsB else bsA) = bsA
  rw [if_neg]
  rw [signalStrength_entO_bsA, signalStrength_entO_bsB]
  norm_num

/-- C8: with a node attached, `pick_best_bs` returns the currently attached
node — no handover — whenever the best candidate's signal exceeds the attached
node's by strictly less than the handover threshold. -/
theorem pickBestBs_hysteresis (ent : MobileEntity) (att hd : BSNode)
    (tl : List BSNode) (hatt : ent.attached_server = some att)
    (h : signalStrength ent (pythonMaxBy (signalStrength ent) hd tl)
          - signalStrength ent att < ent.ho_threshold_db) :
    pickBestBs ent (hd :: tl) = some att := by
  unfold pickBestBs
  rw [hatt]
  exact if_neg (not_le.mpr h)

/-- Witness for C8 at the claim's concrete configuration: threshold 3, entity
at the origin attached to node A at `(0, 1)` (signal 0); node B at `(0, 100)`
(signal −40) is also a candidate, yet no handover to B occurs. -/
theorem pickBestBs_hysteresis_witness : pickBestBs entO [bsA, bsB] = some bsA :=
  pickBestBs_hysteresis entO bsA bsA [bsB] rfl
    (by
      rw [pythonMaxBy_entO, signalStrength_entO_bsA]
      show (0:ℝ) - 0 < entO.ho_threshold_db
      norm_num [entO])

end EdgeSim
